import Mathlib

/- Shallow embedding of the XSafe content-filter engine
   (class XSafeContentFilter, content-script variants).

   The primary model follows the performance-optimized variant
   (src/unnamed/part_011, lines 1-542).  Namespace P010 embeds the
   replaceElement / revealElement pair of the variant in
   src/unnamed/part_010 (which also hides the visibility property and
   restores it with a fallback), and namespace P009 embeds the
   isUIElement classifier of src/unnamed/part_009, whose body is
   wrapped in a try/catch so that fallible node-property reads are
   caught and answered with false.

   Conventions:
   - DOM nodes are identified by a Nat id; their immutable attributes
     (src, outerHTML, data-testid, alt, bounding-box width/height) sit
     in an Elem record, while their mutable inline style lives in an
     association list inside the engine state (the styles field).
   - JS strings that are tested for truthiness are modeled with jsOr
     (empty string is the only falsy string reached by the code).
   - getAttribute returns Option String (null becomes none); the JS
     optional-chaining / null-guard patterns are modeled by matching.
   - The CSS selector queries of scanForImages / scanForVideos are
     abstracted: a scan receives the candidate lists the selectors
     would have produced, and applies to them exactly the per-element
     logic of the source.
   - Timestamps (Date.now) are Nat milliseconds passed in explicitly. -/

namespace XSafe

/-- Model of the JS expression a || b for strings: the empty string is
falsy, every other string is truthy. -/
def jsOr (a b : String) : String :=
  if a = "" then b else a

/-- Model of the JS call s.includes(sub): substring containment. -/
def strIncludes (s sub : String) : Bool :=
  decide (sub.toList <:+: s.toList)

/-- Model of o?.includes(sub) for a nullable attribute value. -/
def optIncludes (o : Option String) (sub : String) : Bool :=
  match o with
  | some s => strIncludes s sub
  | none => false

/-- ASCII lower-casing of one character, as toLowerCase acts on the
ASCII range the markers live in. -/
def charToLower (c : Char) : Char :=
  if 65 ≤ c.toNat ∧ c.toNat ≤ 90 then Char.ofNat (c.toNat + 32) else c

/-- Model of the JS call s.toLowerCase() on ASCII text. -/
def strToLower (s : String) : String :=
  ⟨s.data.map charToLower⟩

/-- Model of the JS call s.substring(0, n): the first n characters. -/
def strTake (s : String) (n : Nat) : String :=
  ⟨s.data.take n⟩

/-- Model of o?.toLowerCase().includes(sub) for a nullable attribute. -/
def optLowerIncludes (o : Option String) (sub : String) : Bool :=
  match o with
  | some s => strIncludes (strToLower s) sub
  | none => false

/-- Inline style state of a DOM node: the display and visibility
properties, as element.style.display / element.style.visibility. -/
structure ElemStyle where
  display : String
  visibility : String
deriving DecidableEq, Repr

/-- Immutable attributes of a candidate DOM node, as read by the
engine: id is the node identity, src and outerHTML feed the cache key,
data-testid and alt feed the marker checks (none = getAttribute gave
null), width and height are the getBoundingClientRect dimensions. -/
structure Elem where
  id : Nat
  src : String
  outerHTML : String
  dataTestId : Option String
  alt : Option String
  width : Nat
  height : Nat
deriving DecidableEq, Repr

/-- Settings snapshot delivered by the background script (this.settings):
enabled flag, filterMode (images / videos / both), intensityLevel
(permissive / moderate / strict), domain lists, placeholder flag. -/
structure Settings where
  enabled : Bool
  filterMode : String
  intensityLevel : String
  whitelistedDomains : List String
  blacklistedDomains : List String
  showPlaceholders : Bool
deriving DecidableEq, Repr

/-- Association-list read for per-node style; a node never written has
the default empty inline style (display and visibility both empty). -/
def getStyle (m : List (Nat × ElemStyle)) (i : Nat) : ElemStyle :=
  match m with
  | [] => ⟨"", ""⟩
  | (j, t) :: rest => if j = i then t else getStyle rest i

/-- Association-list write for per-node style. -/
def setStyle (m : List (Nat × ElemStyle)) (i : Nat) (s : ElemStyle) :
    List (Nat × ElemStyle) :=
  match m with
  | [] => [(i, s)]
  | (j, t) :: rest => if j = i then (i, s) :: rest else (j, t) :: setStyle rest i s

/-- Read of the element._xsafeData side table (some = property set). -/
def lookupData (m : List (Nat × ElemStyle)) (i : Nat) : Option ElemStyle :=
  match m with
  | [] => none
  | (j, t) :: rest => if j = i then some t else lookupData rest i

/-- Write of the element._xsafeData side table. -/
def setData (m : List (Nat × ElemStyle)) (i : Nat) (s : ElemStyle) :
    List (Nat × ElemStyle) :=
  match m with
  | [] => [(i, s)]
  | (j, t) :: rest => if j = i then (i, s) :: rest else (j, t) :: setData rest i s

/-- Lookup in the classification cache (a JS Map in insertion order,
oldest entry first). -/
def cacheLookup (c : List (String × Bool)) (k : String) : Option Bool :=
  match c with
  | [] => none
  | (k2, b) :: rest => if k2 = k then some b else cacheLookup rest k

/-- Model of Set.add: append the id if absent, keep the original
position if already present. -/
def addIfAbsent (l : List Nat) (i : Nat) : List Nat :=
  if i ∈ l then l else l ++ [i]

/-- Constant this.scanCooldown = 2000 set in the constructor. -/
def scanCooldown : Nat := 2000

/-- Constant this.maxFilteredElements = 200 set in the constructor. -/
def maxFilteredElements : Nat := 200

/-- Constant cache cap 500 used in isUIElement. -/
def maxUiCacheSize : Nat := 500

/-- Cache key of isUIElement: element.src || element.outerHTML.substring(0, 100). -/
def cacheKey (e : Elem) : String :=
  jsOr e.src (strTake e.outerHTML 100)

/-- Uncached body of isUIElement (part_011 lines 505-520): data-testid
containing avatar, or alt lowercased containing avatar or profile,
makes the node UI; otherwise a bounding box under 80 in both
dimensions makes it UI; otherwise it is content. -/
def computeIsUI (e : Elem) : Bool :=
  if optIncludes e.dataTestId "avatar"
      || optLowerIncludes e.alt "avatar"
      || optLowerIncludes e.alt "profile" then
    true
  else if e.width < 80 && e.height < 80 then
    true
  else
    false

/-- Cache-size limiting step of isUIElement: when the map exceeds 500
entries, the first (oldest inserted) key is deleted. -/
def trimCache (c : List (String × Bool)) : List (String × Bool) :=
  if c.length > maxUiCacheSize then c.drop 1 else c

/-- isUIElement (part_011 lines 498-532): consult the cache by the key
of the node; on a miss compute the result, insert it, and trim the
cache to the 500-entry cap.  Returns the classification together with
the updated cache. -/
def isUIElement (cache : List (String × Bool)) (e : Elem) :
    Bool × List (String × Bool) :=
  match cacheLookup cache (cacheKey e) with
  | some b => (b, cache)
  | none =>
      let isUI := computeIsUI e
      (isUI, trimCache (cache ++ [(cacheKey e, isUI)]))

/-- Engine state of the XSafeContentFilter instance, together with the
mutable styles of the page nodes and the window.location.hostname the
domain checks read. -/
structure FilterState where
  settings : Settings
  hostname : String
  filteredElements : List Nat
  origData : List (Nat × ElemStyle)
  placeholders : List Nat
  uiCache : List (String × Bool)
  styles : List (Nat × ElemStyle)
  lastScanTime : Nat
  isFiltering : Bool
deriving DecidableEq, Repr

/-- isWhitelisted: the page hostname is on settings.whitelistedDomains. -/
def isWhitelisted (st : FilterState) (e : Elem) : Bool :=
  st.settings.whitelistedDomains.contains st.hostname

/-- isBlacklisted: the page hostname is on settings.blacklistedDomains. -/
def isBlacklisted (st : FilterState) (e : Elem) : Bool :=
  st.settings.blacklistedDomains.contains st.hostname

/-- shouldFilter (part_011 lines 315-327): permissive intensity returns
false first; then a blacklisted domain returns true; then the default
returns true. -/
def shouldFilter (st : FilterState) (e : Elem) (ty : String) : Bool :=
  if st.settings.intensityLevel = "permissive" then
    false
  else if isBlacklisted st e then
    true
  else
    true

/-- replaceElement (part_011 lines 339-365): capture the current display
and visibility into _xsafeData, set display to none, record the node in
filteredElements, and attach a placeholder (inserted into the page only
when showPlaceholders is set). -/
def replaceElement (st : FilterState) (e : Elem) (ty : String) : FilterState :=
  let orig := getStyle st.styles e.id
  { st with
    styles := setStyle st.styles e.id ⟨"none", orig.visibility⟩,
    filteredElements := addIfAbsent st.filteredElements e.id,
    origData := setData st.origData e.id orig,
    placeholders :=
      if st.settings.showPlaceholders then addIfAbsent st.placeholders e.id
      else st.placeholders }

/-- filterImage (part_011 lines 305-313): skip when the domain is
whitelisted or the node is already filtered; otherwise conceal when
shouldFilter allows. -/
def filterImage (st : FilterState) (e : Elem) : FilterState :=
  if isWhitelisted st e = true ∨ e.id ∈ st.filteredElements then
    st
  else if shouldFilter st e "image" then
    replaceElement st e "image"
  else
    st

/-- filterVideo (part_011 lines 295-303), same shape as filterImage. -/
def filterVideo (st : FilterState) (e : Elem) : FilterState :=
  if isWhitelisted st e = true ∨ e.id ∈ st.filteredElements then
    st
  else if shouldFilter st e "video" then
    replaceElement st e "video"
  else
    st

/-- limitFilteredElements (part_011 lines 191-205): when the filtered
set exceeds 200, walk the set iterator (insertion order, oldest first)
and for each of the excess elements remove its placeholder from the
page and delete it from the set.  The element styles and the saved
_xsafeData are not touched. -/
def limitFilteredElements (st : FilterState) : FilterState :=
  if st.filteredElements.length > maxFilteredElements then
    let toRemove := st.filteredElements.length - maxFilteredElements
    { st with
      filteredElements := st.filteredElements.drop toRemove,
      placeholders :=
        (st.filteredElements.take toRemove).foldl (fun p i => p.erase i)
          st.placeholders }
  else
    st

/-- shouldFilterVideos: filterMode is videos or both. -/
def shouldFilterVideos (st : FilterState) : Bool :=
  ["videos", "both"].contains st.settings.filterMode

/-- shouldFilterImages: filterMode is images or both. -/
def shouldFilterImages (st : FilterState) : Bool :=
  ["images", "both"].contains st.settings.filterMode

/-- scanForVideos (part_011 lines 248-259) on the candidate list the
video selectors produce: filterVideo on each element in order. -/
def scanForVideos (st : FilterState) (vids : List Elem) : FilterState :=
  vids.foldl filterVideo st

/-- scanForImages (part_011 lines 261-279) on the candidate list the
image selectors produce: each element is first classified (mutating the
cache) and concealed only when it is not a UI element. -/
def scanForImages (st : FilterState) (imgs : List Elem) : FilterState :=
  imgs.foldl
    (fun s e =>
      let r := isUIElement s.uiCache e
      let s2 := { s with uiCache := r.2 }
      if r.1 then s2 else filterImage s2 e)
    st

/-- canScan (part_011 lines 123-129): false within the cooldown window
after the last scan. -/
def canScan (st : FilterState) (now : Nat) : Bool :=
  !(now - st.lastScanTime < scanCooldown)

/-- scanExistingContent (part_011 lines 163-189): return unchanged
within the cooldown; otherwise stamp lastScanTime, trim the filtered
set, then scan the video and image candidates according to the mode. -/
def scanExistingContent (st : FilterState) (now : Nat)
    (vids imgs : List Elem) : FilterState :=
  if now - st.lastScanTime < scanCooldown then
    st
  else
    let st1 := { st with lastScanTime := now }
    let st2 := limitFilteredElements st1
    let st3 := if shouldFilterVideos st2 then scanForVideos st2 vids else st2
    if shouldFilterImages st3 then scanForImages st3 imgs else st3

/-- revealElement (part_011 lines 434-440): remove the placeholder,
set display back to the saved original display (the visibility property
is not written), and delete the record.  Inside the engine every
filtered node carries saved data; a missing entry is modeled by the
default empty style. -/
def revealElement (st : FilterState) (i : Nat) : FilterState :=
  let saved := (lookupData st.origData i).getD ⟨"", ""⟩
  { st with
    placeholders := st.placeholders.erase i,
    styles := setStyle st.styles i ⟨saved.display, (getStyle st.styles i).visibility⟩,
    filteredElements := st.filteredElements.erase i }

/-- restoreAllElements (part_011 lines 442-447): reveal every filtered
element, then clear the set. -/
def restoreAllElements (st : FilterState) : FilterState :=
  let st2 := st.filteredElements.foldl revealElement st
  { st2 with filteredElements := [] }

/-- cleanup (part_011 lines 157-161): clear the filtered set and the
classification cache. -/
def cleanup (st : FilterState) : FilterState :=
  { st with filteredElements := [], uiCache := [] }

/-- stopFiltering (part_011 lines 131-155): drop the observers and the
interval (no state in this model), restore all elements and clean up. -/
def stopFiltering (st : FilterState) : FilterState :=
  cleanup (restoreAllElements { st with isFiltering := false })

/-- startFiltering (part_011 lines 86-106): when already filtering just
re-scan; otherwise mark filtering, run the initial scan and register
the observers, CSS and periodic timer (no state in this model). -/
def startFiltering (st : FilterState) (now : Nat)
    (vids imgs : List Elem) : FilterState :=
  if st.isFiltering then
    scanExistingContent st now vids imgs
  else
    scanExistingContent { st with isFiltering := true } now vids imgs

/-- handleMessage for UPDATE_FILTERS (part_011 lines 65-84): install
the new settings, start or stop according to enabled, then issue one
immediate re-scan when enabled. -/
def handleMessage (st : FilterState) (newSettings : Settings) (now : Nat)
    (vids imgs : List Elem) : FilterState :=
  let st1 := { st with settings := newSettings }
  let st2 :=
    if newSettings.enabled then startFiltering st1 now vids imgs
    else stopFiltering st1
  if newSettings.enabled then scanExistingContent st2 now vids imgs else st2

end XSafe

namespace XSafe.P010

/-- State touched by the replaceElement / revealElement pair of the
part_010 variant: the record set, the _xsafeData side table, the node
styles, the monotone element counter and the data-xsafe-id attribute
table. -/
structure State where
  filteredElements : List Nat
  origData : List (Nat × ElemStyle)
  styles : List (Nat × ElemStyle)
  elementCounter : Nat
  xsafeIds : List (Nat × String)
deriving DecidableEq, Repr

/-- Write of the data-xsafe-id attribute table. -/
def setId (m : List (Nat × String)) (i : Nat) (v : String) :
    List (Nat × String) :=
  match m with
  | [] => [(i, v)]
  | (j, t) :: rest => if j = i then (i, v) :: rest else (j, t) :: setId rest i v

/-- Removal of the data-xsafe-id attribute. -/
def removeId (m : List (Nat × String)) (i : Nat) : List (Nat × String) :=
  match m with
  | [] => []
  | (j, t) :: rest => if j = i then removeId rest i else (j, t) :: removeId rest i

/-- replaceElement (part_010 lines 604-632): bump the counter, stamp a
unique data-xsafe-id, capture the current display and visibility into
_xsafeData, hide the node by setting display to none and visibility to
hidden (no placeholder in this variant), and record the node. -/
def replaceElement (st : State) (i : Nat) : State :=
  let n := st.elementCounter + 1
  let orig := getStyle st.styles i
  { st with
    elementCounter := n,
    xsafeIds := setId st.xsafeIds i ("xsafe-" ++ toString n),
    origData := setData st.origData i orig,
    styles := setStyle st.styles i ⟨"none", "hidden"⟩,
    filteredElements := addIfAbsent st.filteredElements i }

/-- revealElement (part_010 lines 634-665): write back the saved
originalDisplay and originalVisibility (with an empty-string fallback
when a saved value is falsy or the data is missing), drop the
data-xsafe-id attribute, and delete the record. -/
def revealElement (st : State) (i : Nat) : State :=
  let restored :=
    match lookupData st.origData i with
    | some d => ElemStyle.mk (jsOr d.display "") (jsOr d.visibility "")
    | none => ElemStyle.mk "" ""
  { st with
    styles := setStyle st.styles i restored,
    xsafeIds := removeId st.xsafeIds i,
    filteredElements := st.filteredElements.erase i }

end XSafe.P010

namespace XSafe.P009

/-- Node as read by the hardened classifier of part_009: the attribute
and bounding-box reads can fail (a detached or exotic node), which the
source catches inside the classifier.  The src and outerHTML property
reads that build the cache key are plain DOM property reads and are
modeled total. -/
structure FElem where
  src : String
  outerHTML : String
  dataTestId : Except Unit (Option String)
  alt : Except Unit (Option String)
  rect : Except Unit (Option (Nat × Nat))
deriving Repr

/-- Body of the try block of isUIElement (part_009 lines 1582-1599):
read data-testid and alt, test the markers (data-testid checked for
avatar as-is, alt lowercased and checked for avatar and profile), and
otherwise measure the bounding box with a null guard. -/
def tryBody (e : FElem) : Except Unit Bool := do
  let dt ← e.dataTestId
  let altText ← e.alt
  if (match dt with | some s => strIncludes s "avatar" | none => false)
      || optLowerIncludes altText "avatar"
      || optLowerIncludes altText "profile" then
    return true
  else
    match ← e.rect with
    | some r => return (r.1 < 80 && r.2 < 80)
    | none => return false

/-- isUIElement (part_009 lines 1573-1615): the cache key and lookup
come first; on a miss the marker and size logic runs inside a try whose
catch answers false without touching the cache; a successful body
caches its result, trimming the cache to the 500-entry cap. -/
def isUIElementSafe (cache : List (String × Bool)) (e : FElem) :
    Bool × List (String × Bool) :=
  let k := jsOr e.src (strTake e.outerHTML 100)
  match cacheLookup cache k with
  | some b => (b, cache)
  | none =>
      match tryBody e with
      | Except.error _ => (false, cache)
      | Except.ok isUI => (isUI, trimCache (cache ++ [(k, isUI)]))

end XSafe.P009

namespace XSafe

/-- Classifier as claim C9 words it (spec side, for comparison with the
source-derived computeIsUI): an identifier or descriptive-text
attribute containing avatar or profile case-insensitively makes the
node chrome, otherwise a bounding box under 80 in both dimensions
does, otherwise the node is content. -/
def claimIsUI (e : Elem) : Bool :=
  if optLowerIncludes e.dataTestId "avatar"
      || optLowerIncludes e.dataTestId "profile"
      || optLowerIncludes e.alt "avatar"
      || optLowerIncludes e.alt "profile" then
    true
  else if e.width < 80 && e.height < 80 then
    true
  else
    false

/-- Marker disjunction actually tested by the source classifier. -/
def markerHit (e : Elem) : Bool :=
  optIncludes e.dataTestId "avatar"
    || optLowerIncludes e.alt "avatar"
    || optLowerIncludes e.alt "profile"

end XSafe

namespace XSafe

/- Shared helper lemmas about the embedding. -/

theorem jsOr_empty (s : String) : jsOr s "" = s := by
  unfold jsOr
  split
  · simp_all
  · rfl

theorem getStyle_setStyle_self (m : List (Nat × ElemStyle)) (i : Nat)
    (s : ElemStyle) : getStyle (setStyle m i s) i = s := by
  induction m with
  | nil => simp [setStyle, getStyle]
  | cons p rest ih =>
      by_cases h : p.1 = i
      · simp [setStyle, getStyle, h]
      · simp [setStyle, getStyle, h, ih]

theorem getStyle_setStyle_other (m : List (Nat × ElemStyle)) (i j : Nat)
    (s : ElemStyle) (h : j ≠ i) : getStyle (setStyle m j s) i = getStyle m i := by
  induction m with
  | nil => simp [setStyle, getStyle, h]
  | cons p rest ih =>
      by_cases hp : p.1 = j
      · simp [setStyle, getStyle, hp, h]
      · simp only [setStyle, hp, if_false, getStyle]
        by_cases hq : p.1 = i
        · simp [getStyle, hq]
        · simp [getStyle, hq, ih]

theorem lookupData_setData_self (m : List (Nat × ElemStyle)) (i : Nat)
    (s : ElemStyle) : lookupData (setData m i s) i = some s := by
  induction m with
  | nil => simp [setData, lookupData]
  | cons p rest ih =>
      by_cases h : p.1 = i
      · simp [setData, lookupData, h]
      · simp [setData, lookupData, h, ih]

theorem cacheLookup_append_self (c : List (String × Bool)) (k : String)
    (v : Bool) (h : cacheLookup c k = none) :
    cacheLookup (c ++ [(k, v)]) k = some v := by
  induction c with
  | nil => simp [cacheLookup]
  | cons p rest ih =>
      by_cases hp : p.1 = k
      · simp [cacheLookup, hp] at h
      · simp only [cacheLookup, hp, if_false] at h ⊢
        simp [List.cons_append, cacheLookup, hp] at *
        exact ih h

theorem erase_append_singleton (l : List Nat) (i : Nat) (h : i ∉ l) :
    (l ++ [i]).erase i = l := by
  induction l with
  | nil => simp
  | cons a t ih =>
      have ha : ¬ (a = i) := by
        intro hx
        exact h (hx ▸ List.mem_cons_self a t)
      have ht : i ∉ t := fun hx => h (List.mem_cons_of_mem a hx)
      simp [List.erase_cons, ha, ih ht]

theorem foldl_preserves {α σ : Type} (f : σ → α → σ) (P : σ → Prop)
    (hf : ∀ s a, P s → P (f s a)) :
    ∀ (l : List α) (s : σ), P s → P (l.foldl f s) := by
  intro l
  induction l with
  | nil => intro s hs; exact hs
  | cons a t ih => intro s hs; exact ih (f s a) (hf s a hs)

theorem limitFilteredElements_styles (st : FilterState) :
    (limitFilteredElements st).styles = st.styles := by
  unfold limitFilteredElements
  split <;> rfl

theorem limitFilteredElements_origData (st : FilterState) :
    (limitFilteredElements st).origData = st.origData := by
  unfold limitFilteredElements
  split <;> rfl

theorem limitFilteredElements_lastScanTime (st : FilterState) :
    (limitFilteredElements st).lastScanTime = st.lastScanTime := by
  unfold limitFilteredElements
  split <;> rfl

theorem limitFilteredElements_drop (st : FilterState) :
    (limitFilteredElements st).filteredElements =
      st.filteredElements.drop (st.filteredElements.length - maxFilteredElements) := by
  unfold limitFilteredElements
  split
  · simp
  · next h =>
      rw [Nat.sub_eq_zero_of_le (Nat.le_of_not_lt h), List.drop_zero]

theorem replaceElement_lastScanTime (st : FilterState) (e : Elem) (ty : String) :
    (replaceElement st e ty).lastScanTime = st.lastScanTime := rfl

theorem filterImage_lastScanTime (st : FilterState) (e : Elem) :
    (filterImage st e).lastScanTime = st.lastScanTime := by
  unfold filterImage
  split
  · rfl
  · split <;> rfl

theorem filterVideo_lastScanTime (st : FilterState) (e : Elem) :
    (filterVideo st e).lastScanTime = st.lastScanTime := by
  unfold filterVideo
  split
  · rfl
  · split <;> rfl

theorem scanForVideos_lastScanTime (st : FilterState) (vids : List Elem) :
    (scanForVideos st vids).lastScanTime = st.lastScanTime := by
  unfold scanForVideos
  have := foldl_preserves filterVideo
    (fun s => s.lastScanTime = st.lastScanTime)
    (fun s e hs => by
      show (filterVideo s e).lastScanTime = st.lastScanTime
      rw [filterVideo_lastScanTime]
      exact hs) vids st rfl
  exact this

theorem scanForImages_lastScanTime (st : FilterState) (imgs : List Elem) :
    (scanForImages st imgs).lastScanTime = st.lastScanTime := by
  unfold scanForImages
  have := foldl_preserves
    (fun s e =>
      let r := isUIElement s.uiCache e
      let s2 := { s with uiCache := r.2 }
      if r.1 then s2 else filterImage s2 e)
    (fun s => s.lastScanTime = st.lastScanTime)
    (fun s e hs => by
      show ((fun s e =>
        let r := isUIElement s.uiCache e
        let s2 := { s with uiCache := r.2 }
        if r.1 then s2 else filterImage s2 e) s e).lastScanTime = st.lastScanTime
      simp only
      split
      · exact hs
      · rw [filterImage_lastScanTime]; exact hs)
    imgs st rfl
  exact this

theorem scanExistingContent_lastScanTime (st : FilterState) (now : Nat)
    (vids imgs : List Elem) (h : ¬ now - st.lastScanTime < scanCooldown) :
    (scanExistingContent st now vids imgs).lastScanTime = now := by
  unfold scanExistingContent
  rw [if_neg h]
  simp only
  split
  · split
    · rw [scanForImages_lastScanTime, scanForVideos_lastScanTime,
        limitFilteredElements_lastScanTime]
    · rw [scanForVideos_lastScanTime, limitFilteredElements_lastScanTime]
  · split
    · rw [scanForImages_lastScanTime, limitFilteredElements_lastScanTime]
    · rw [limitFilteredElements_lastScanTime]

end XSafe

namespace XSafe

/- Preservation of an already-hidden node through the enabled path of a
configuration update: every style write in that path writes display
none, so a node whose display is none keeps it. -/

theorem replaceElement_display_none (st : FilterState) (e : Elem)
    (ty : String) (i : Nat) (h : (getStyle st.styles i).display = "none") :
    (getStyle (replaceElement st e ty).styles i).display = "none" := by
  unfold replaceElement
  simp only
  by_cases hid : e.id = i
  · rw [hid, getStyle_setStyle_self]
  · rw [getStyle_setStyle_other _ _ _ _ hid]
    exact h

theorem filterImage_display_none (st : FilterState) (e : Elem) (i : Nat)
    (h : (getStyle st.styles i).display = "none") :
    (getStyle (filterImage st e).styles i).display = "none" := by
  unfold filterImage
  split
  · exact h
  · split
    · exact replaceElement_display_none st e "image" i h
    · exact h

theorem filterVideo_display_none (st : FilterState) (e : Elem) (i : Nat)
    (h : (getStyle st.styles i).display = "none") :
    (getStyle (filterVideo st e).styles i).display = "none" := by
  unfold filterVideo
  split
  · exact h
  · split
    · exact replaceElement_display_none st e "video" i h
    · exact h

theorem scanForVideos_display_none (st : FilterState) (vids : List Elem)
    (i : Nat) (h : (getStyle st.styles i).display = "none") :
    (getStyle (scanForVideos st vids).styles i).display = "none" := by
  unfold scanForVideos
  exact foldl_preserves filterVideo
    (fun s => (getStyle s.styles i).display = "none")
    (fun s e hs => by
      show (getStyle (filterVideo s e).styles i).display = "none"
      exact filterVideo_display_none s e i hs) vids st h

theorem scanForImages_display_none (st : FilterState) (imgs : List Elem)
    (i : Nat) (h : (getStyle st.styles i).display = "none") :
    (getStyle (scanForImages st imgs).styles i).display = "none" := by
  unfold scanForImages
  exact foldl_preserves
    (fun s e =>
      let r := isUIElement s.uiCache e
      let s2 := { s with uiCache := r.2 }
      if r.1 then s2 else filterImage s2 e)
    (fun s => (getStyle s.styles i).display = "none")
    (fun s e hs => by
      show (getStyle ((fun s e =>
        let r := isUIElement s.uiCache e
        let s2 := { s with uiCache := r.2 }
        if r.1 then s2 else filterImage s2 e) s e).styles i).display = "none"
      simp only
      split
      · exact hs
      · exact filterImage_display_none _ e i hs)
    imgs st h

theorem limitFilteredElements_display_none (st : FilterState) (i : Nat)
    (h : (getStyle st.styles i).display = "none") :
    (getStyle (limitFilteredElements st).styles i).display = "none" := by
  rw [limitFilteredElements_styles]
  exact h

theorem scanExistingContent_display_none (st : FilterState) (now : Nat)
    (vids imgs : List Elem) (i : Nat)
    (h : (getStyle st.styles i).display = "none") :
    (getStyle (scanExistingContent st now vids imgs).styles i).display = "none" := by
  unfold scanExistingContent
  split
  · exact h
  · simp only
    split
    · split
      · exact scanForImages_display_none _ imgs i
          (scanForVideos_display_none _ vids i
            (limitFilteredElements_display_none _ i h))
      · exact scanForVideos_display_none _ vids i
          (limitFilteredElements_display_none _ i h)
    · split
      · exact scanForImages_display_none _ imgs i
          (limitFilteredElements_display_none _ i h)
      · exact limitFilteredElements_display_none _ i h

theorem startFiltering_display_none (st : FilterState) (now : Nat)
    (vids imgs : List Elem) (i : Nat)
    (h : (getStyle st.styles i).display = "none") :
    (getStyle (startFiltering st now vids imgs).styles i).display = "none" := by
  unfold startFiltering
  split
  · exact scanExistingContent_display_none st now vids imgs i h
  · exact scanExistingContent_display_none _ now vids imgs i h

end XSafe

namespace XSafe

/- Concrete states and nodes used by the counterexamples and witnesses. -/

/-- Settings with permissive intensity and the page domain on the deny
list, used against claim C1. -/
def permissiveDenied : Settings :=
  { enabled := true, filterMode := "both", intensityLevel := "permissive",
    whitelistedDomains := [], blacklistedDomains := ["x.com"],
    showPlaceholders := false }

/-- Engine state on a deny-listed page with permissive intensity. -/
def stC1 : FilterState :=
  { settings := permissiveDenied, hostname := "x.com",
    filteredElements := [], origData := [], placeholders := [],
    uiCache := [], styles := [], lastScanTime := 0, isFiltering := true }

/-- A large content image on that page. -/
def elemC1 : Elem := ⟨1, "pic1", "", none, none, 300, 200⟩

/-- Strict settings filtering both media types. -/
def strictBoth : Settings :=
  { enabled := true, filterMode := "both", intensityLevel := "strict",
    whitelistedDomains := [], blacklistedDomains := [],
    showPlaceholders := false }

/-- Strict settings filtering images only. -/
def strictImages : Settings :=
  { enabled := true, filterMode := "images", intensityLevel := "strict",
    whitelistedDomains := [], blacklistedDomains := [],
    showPlaceholders := false }

/-- Engine state holding 201 concealment records (ids 0 to 200), each
element currently hidden (display none) with saved original empty
display, as left by 201 conceal calls. -/
def stC2 : FilterState :=
  { settings := strictBoth, hostname := "x.com",
    filteredElements := List.range 201,
    origData := (List.range 201).map (fun i => (i, ⟨"", ""⟩)),
    placeholders := [],
    uiCache := [],
    styles := (List.range 201).map (fun i => (i, ⟨"none", ""⟩)),
    lastScanTime := 0, isFiltering := true }

end XSafe

namespace XSafe

/-- C1: the claim says a deny-listed page domain makes conceal proceed
even under permissive intensity.  Counterexample: on a deny-listed
page with intensity permissive, shouldFilter answers false and
filterImage conceals nothing (the permissive short-circuit runs before
the deny-list check). -/
theorem c1_counterexample :
    isBlacklisted stC1 elemC1 = true ∧
    stC1.settings.intensityLevel = "permissive" ∧
    shouldFilter stC1 elemC1 "image" = false ∧
    filterImage stC1 elemC1 = stC1 ∧
    elemC1.id ∉ (filterImage stC1 elemC1).filteredElements := by
  decide

/-- C1 (amended): shouldFilter depends only on the intensity level: it
answers false exactly when intensity is permissive, even on a
deny-listed domain, and true otherwise (the deny-list branch cannot
override the permissive short-circuit). -/
theorem c1_amended (st : FilterState) (e : Elem) (ty : String) :
    shouldFilter st e ty = !(st.settings.intensityLevel == "permissive") := by
  unfold shouldFilter
  by_cases h : st.settings.intensityLevel = "permissive"
  · simp [h]
  · simp [h]

set_option maxRecDepth 40000 in
/-- C2: the claim says every element evicted by the 200-record trim has
its original visibility restored before its record is forgotten.
Counterexample: from a state with 201 records, limitFilteredElements
forgets the record of element 0 (oldest) while its display stays none,
although the saved original display was the empty string. -/
theorem c2_counterexample :
    stC2.filteredElements.length = 201 ∧
    lookupData stC2.origData 0 = some ⟨"", ""⟩ ∧
    (0 : Nat) ∉ (limitFilteredElements stC2).filteredElements ∧
    getStyle (limitFilteredElements stC2).styles 0 = ⟨"none", ""⟩ := by
  decide

/-- C2 (amended): trimming the record set past the 200 cap drops the
oldest records and removes their placeholders, but it never restores an
evicted element: the node styles and the saved original data are left
untouched by limitFilteredElements, so evicted elements stay hidden. -/
theorem c2_amended (st : FilterState) :
    (limitFilteredElements st).styles = st.styles ∧
    (limitFilteredElements st).origData = st.origData ∧
    (limitFilteredElements st).filteredElements =
      st.filteredElements.drop (st.filteredElements.length - maxFilteredElements) :=
  ⟨limitFilteredElements_styles st, limitFilteredElements_origData st,
    limitFilteredElements_drop st⟩

end XSafe

namespace XSafe

/-- Initial engine state on a clean page under strict both-mode
settings (nothing filtered yet, observers not started). -/
def st0C3 : FilterState :=
  { settings := strictBoth, hostname := "x.com",
    filteredElements := [], origData := [], placeholders := [],
    uiCache := [], styles := [], lastScanTime := 0, isFiltering := false }

/-- A qualifying video node on that page. -/
def vidC3 : Elem := ⟨7, "vid7", "", none, none, 640, 360⟩

/-- State after the scan at time 2000 concealed the video. -/
def s1C3 : FilterState := scanExistingContent st0C3 2000 [vidC3] []

/-- State after an UPDATE_FILTERS message at time 4000 switched the
mode from both to images while keeping enabled true. -/
def s2C3 : FilterState := handleMessage s1C3 strictImages 4000 [vidC3] []

/-- C3: the claim says a configuration update that keeps enabled true
restores every concealed node that no longer qualifies.
Counterexample: a video concealed under mode both stays concealed
(record kept, display still none) after an update to mode images, a
policy under which it no longer qualifies. -/
theorem c3_counterexample :
    s1C3.filteredElements = [7] ∧
    getStyle s1C3.styles 7 = ⟨"none", ""⟩ ∧
    shouldFilterVideos s2C3 = false ∧
    (7 : Nat) ∈ s2C3.filteredElements ∧
    getStyle s2C3.styles 7 = ⟨"none", ""⟩ := by
  decide

/-- C3 (amended): an UPDATE_FILTERS message with enabled true installs
the new settings and re-scans (subject to the cooldown), concealing
newly-qualifying nodes, but it never restores a previously concealed
node: any node hidden before the update (display none) is still hidden
after it, whatever the new mode or intensity. -/
theorem c3_amended (st : FilterState) (newS : Settings) (now : Nat)
    (vids imgs : List Elem) (i : Nat) (h1 : newS.enabled = true)
    (h2 : (getStyle st.styles i).display = "none") :
    (getStyle (handleMessage st newS now vids imgs).styles i).display = "none" := by
  unfold handleMessage
  rw [h1]
  simp only [if_true]
  exact scanExistingContent_display_none _ now vids imgs i
    (startFiltering_display_none _ now vids imgs i h2)

/-- Small state with one concealed, hidden node (id 5), used to witness
the amended C3 theorem. -/
def stW3 : FilterState :=
  { settings := strictBoth, hostname := "x.com",
    filteredElements := [5], origData := [(5, ⟨"", ""⟩)], placeholders := [],
    uiCache := [], styles := [(5, ⟨"none", ""⟩)], lastScanTime := 0,
    isFiltering := true }

/-- C3 witness: the amended theorem applied to a concrete hidden node
and a concrete enabled-preserving update. -/
theorem c3_witness :
    strictImages.enabled = true ∧
    (getStyle stW3.styles 5).display = "none" ∧
    (getStyle (handleMessage stW3 strictImages 0 [] []).styles 5).display = "none" :=
  ⟨rfl, by decide, c3_amended stW3 strictImages 0 [] [] 5 rfl (by decide)⟩

/-- Engine state already holding exactly 200 concealment records
(ids 0 to 199), each hidden. -/
def stC4 : FilterState :=
  { settings := strictImages, hostname := "x.com",
    filteredElements := List.range 200,
    origData := (List.range 200).map (fun i => (i, ⟨"", ""⟩)),
    placeholders := [],
    uiCache := [],
    styles := (List.range 200).map (fun i => (i, ⟨"none", ""⟩)),
    lastScanTime := 0, isFiltering := true }

/-- A fresh qualifying image not yet filtered. -/
def imgC4 : Elem := ⟨200, "s200", "", none, none, 300, 200⟩

set_option maxRecDepth 100000 in
/-- C4: the claim says the concealed-record set never exceeds 200 at
any observable point.  Counterexample: a scan that starts at the cap
trims nothing (200 is not above 200) and then conceals one more node,
leaving 201 records when the entry point returns. -/
theorem c4_counterexample :
    stC4.filteredElements.length = 200 ∧
    (scanExistingContent stC4 2000 [] [imgC4]).filteredElements.length = 201 := by
  decide

/-- C4 (amended): the classification cache obeys its 500-entry cap
after every classification, and a scan trims the concealed set to
min(size, 200) when it starts; between scans the concealed set may
exceed 200, because concealment itself never evicts. -/
theorem c4_amended (st : FilterState) (e : Elem)
    (h : st.uiCache.length ≤ maxUiCacheSize) :
    (isUIElement st.uiCache e).2.length ≤ maxUiCacheSize ∧
    (limitFilteredElements st).filteredElements.length =
      min st.filteredElements.length maxFilteredElements := by
  constructor
  · have h500 : st.uiCache.length ≤ 500 := h
    unfold isUIElement
    split
    · exact h
    · simp only
      unfold trimCache
      split
      · next hgt =>
          show (((st.uiCache ++ [(cacheKey e, computeIsUI e)]).drop 1).length ≤ 500)
          rw [List.length_drop, List.length_append]
          simp only [List.length_singleton]
          omega
      · next hle =>
          exact Nat.le_of_not_lt hle
  · rw [limitFilteredElements_drop, List.length_drop]
    show (st.filteredElements.length - (st.filteredElements.length - 200)
      = min st.filteredElements.length 200)
    omega

/-- Neutral small engine state shared by several witnesses. -/
def stSmall : FilterState :=
  { settings := strictBoth, hostname := "x.com",
    filteredElements := [], origData := [], placeholders := [],
    uiCache := [], styles := [], lastScanTime := 0, isFiltering := true }

/-- Generic large image node used by witnesses. -/
def elemW : Elem := ⟨11, "s11", "", none, none, 300, 200⟩

/-- C4 witness: the amended theorem applied to the small concrete
state and node. -/
theorem c4_witness :
    stSmall.uiCache.length ≤ maxUiCacheSize ∧
    ((isUIElement stSmall.uiCache elemW).2.length ≤ maxUiCacheSize ∧
      (limitFilteredElements stSmall).filteredElements.length =
        min stSmall.filteredElements.length maxFilteredElements) :=
  ⟨by decide, c4_amended stSmall elemW (by decide)⟩

end XSafe

namespace XSafe

/-- C5: classification never throws; a failure while reading a node
property inside the classifier body is caught and the node is answered
isChrome false (and nothing is cached), leaving it eligible for
concealment.  Proved on the hardened part_009 classifier variant. -/
theorem c5_classifier_catches (cache : List (String × Bool)) (e : P009.FElem)
    (hf : P009.tryBody e = Except.error ())
    (hm : cacheLookup cache (jsOr e.src (strTake e.outerHTML 100)) = none) :
    P009.isUIElementSafe cache e = (false, cache) := by
  unfold P009.isUIElementSafe
  simp only
  rw [hm, hf]

/-- Node whose data-testid read fails (a detached or exotic node). -/
def felemW : P009.FElem :=
  ⟨"s", "h", Except.error (), Except.ok none, Except.ok none⟩

/-- C5 witness: the theorem applied to a concrete node whose attribute
read fails. -/
theorem c5_witness :
    P009.tryBody felemW = Except.error () ∧
    P009.isUIElementSafe [] felemW = (false, []) :=
  ⟨rfl, c5_classifier_catches [] felemW rfl rfl⟩

/-- Helper: a scan within the cooldown window is an exact no-op. -/
theorem scanExistingContent_noop (st : FilterState) (now : Nat)
    (vids imgs : List Elem) (h : now - st.lastScanTime < scanCooldown) :
    scanExistingContent st now vids imgs = st := by
  unfold scanExistingContent
  rw [if_pos h]

/-- C6: with the 2000 ms cooldown, of two scan requests 500 ms apart
(the first outside the cooldown) exactly one executes: the first stamps
lastScanTime, the second arrives inside the cooldown and is a silent
no-op that returns the state unchanged. -/
theorem c6_cooldown (st : FilterState) (t : Nat)
    (vids imgs vids2 imgs2 : List Elem) (h : canScan st t = true) :
    canScan (scanExistingContent st t vids imgs) (t + 500) = false ∧
    scanExistingContent (scanExistingContent st t vids imgs) (t + 500) vids2 imgs2
      = scanExistingContent st t vids imgs := by
  have hn : ¬ t - st.lastScanTime < scanCooldown := by
    unfold canScan at h
    simpa using h
  have hl : (scanExistingContent st t vids imgs).lastScanTime = t :=
    scanExistingContent_lastScanTime st t vids imgs hn
  have hin : (t + 500) - (scanExistingContent st t vids imgs).lastScanTime
      < scanCooldown := by
    rw [hl]
    show (t + 500 - t < 2000)
    omega
  constructor
  · unfold canScan
    rw [hl]
    have : t + 500 - t = 500 := by omega
    rw [this]
    decide
  · exact scanExistingContent_noop _ (t + 500) vids2 imgs2 hin

/-- C6 witness: from the fresh state, a scan at 2000 executes and a
second scan at 2500 is a no-op. -/
theorem c6_witness :
    canScan stSmall 2000 = true ∧
    (canScan (scanExistingContent stSmall 2000 [] []) 2500 = false ∧
      scanExistingContent (scanExistingContent stSmall 2000 [] []) 2500 [] []
        = scanExistingContent stSmall 2000 [] []) :=
  ⟨by decide, c6_cooldown stSmall 2000 [] [] [] [] (by decide)⟩

/-- C7: for a node concealed by replaceElement (part_010 variant), a
revealElement returns both the display and the visibility property to
exactly their values from immediately before the conceal, and removes
the concealment record. -/
theorem c7_restore (st : P010.State) (i : Nat) (h : i ∉ st.filteredElements) :
    getStyle (P010.revealElement (P010.replaceElement st i) i).styles i
      = getStyle st.styles i ∧
    i ∉ (P010.revealElement (P010.replaceElement st i) i).filteredElements := by
  unfold P010.replaceElement P010.revealElement
  simp only
  constructor
  · rw [lookupData_setData_self]
    simp only
    rw [getStyle_setStyle_self, jsOr_empty, jsOr_empty]
  · unfold addIfAbsent
    rw [if_neg h, erase_append_singleton st.filteredElements i h]
    exact h

/-- Concrete part_010 state with one visible styled node (id 3). -/
def stW7 : P010.State :=
  ⟨[], [], [(3, ⟨"inline-block", "visible"⟩)], 0, []⟩

/-- C7 witness: conceal then restore of node 3 gives back its exact
style and leaves no record. -/
theorem c7_witness :
    (3 : Nat) ∉ stW7.filteredElements ∧
    (getStyle (P010.revealElement (P010.replaceElement stW7 3) 3).styles 3
        = getStyle stW7.styles 3 ∧
      (3 : Nat) ∉ (P010.revealElement (P010.replaceElement stW7 3) 3).filteredElements) :=
  ⟨by decide, c7_restore stW7 3 (by decide)⟩

/-- C8: conceal is idempotent.  For a node that is not yet filtered, not
whitelisted and allowed by shouldFilter, the first filterImage conceals
it and the second is an exact no-op, leaving exactly one record for
that node. -/
theorem c8_conceal_idempotent (st : FilterState) (e : Elem)
    (h1 : e.id ∉ st.filteredElements)
    (h2 : isWhitelisted st e = false)
    (h3 : shouldFilter st e "image" = true) :
    filterImage (filterImage st e) e = filterImage st e ∧
    (filterImage (filterImage st e) e).filteredElements.count e.id = 1 := by
  have hcond : ¬ (isWhitelisted st e = true ∨ e.id ∈ st.filteredElements) := by
    rw [h2]
    simp [h1]
  have hfi : filterImage st e = replaceElement st e "image" := by
    unfold filterImage
    rw [if_neg hcond, if_pos h3]
  have hadd : (replaceElement st e "image").filteredElements
      = st.filteredElements ++ [e.id] := by
    unfold replaceElement
    simp only
    unfold addIfAbsent
    rw [if_neg h1]
  have hmem : e.id ∈ (replaceElement st e "image").filteredElements := by
    rw [hadd]
    exact List.mem_append_right _ (List.mem_singleton.mpr rfl)
  have hsecond : filterImage (replaceElement st e "image") e
      = replaceElement st e "image" := by
    unfold filterImage
    rw [if_pos (Or.inr hmem)]
  constructor
  · rw [hfi, hsecond]
  · rw [hfi, hsecond, hadd]
    rw [List.count_append]
    rw [List.count_eq_zero.mpr h1]
    simp

/-- C8 witness: the theorem applied to the small state and a concrete
qualifying image. -/
theorem c8_witness :
    elemW.id ∉ stSmall.filteredElements ∧
    isWhitelisted stSmall elemW = false ∧
    shouldFilter stSmall elemW "image" = true ∧
    (filterImage (filterImage stSmall elemW) elemW = filterImage stSmall elemW ∧
      (filterImage (filterImage stSmall elemW) elemW).filteredElements.count elemW.id = 1) :=
  ⟨by decide, by decide, by decide,
    c8_conceal_idempotent stSmall elemW (by decide) (by decide) (by decide)⟩

end XSafe

namespace XSafe

/-- Helper: a cache hit returns the cached value and the unchanged cache. -/
theorem isUIElement_hit (cache : List (String × Bool)) (e : Elem) (v : Bool)
    (h : cacheLookup cache (cacheKey e) = some v) :
    isUIElement cache e = (v, cache) := by
  unfold isUIElement
  rw [h]

/-- Helper: a cache miss returns the computed classification. -/
theorem isUIElement_miss_fst (cache : List (String × Bool)) (e : Elem)
    (h : cacheLookup cache (cacheKey e) = none) :
    (isUIElement cache e).1 = computeIsUI e := by
  unfold isUIElement
  rw [h]

/-- Node with the decorative identifier written Avatar (capital A), no
alt text, and a large bounding box. -/
def elemC9 : Elem := ⟨9, "s9", "x", some "Avatar", none, 200, 200⟩

/-- C9: the claim says an identifier containing avatar or profile
case-insensitively marks the node as chrome.  Counterexample: a node
whose data-testid is Avatar is chrome per the claim wording, but the
code checks data-testid case-sensitively (and only for avatar), so the
classifier answers not-chrome for this large node. -/
theorem c9_counterexample :
    claimIsUI elemC9 = true ∧
    computeIsUI elemC9 = false ∧
    (isUIElement [] elemC9).1 = false := by
  decide

/-- C9 (amended): the short-circuit order stands, but the marker test
is: data-testid checked case-sensitively and only for avatar, while
only alt is lowercased and checked for avatar and profile; when the
marker misses, a bounding box under 80 in both dimensions gives chrome,
anything else gives not-chrome; a fresh classification equals this
computation. -/
theorem c9_amended (cache : List (String × Bool)) (e : Elem)
    (h : cacheLookup cache (cacheKey e) = none) :
    (isUIElement cache e).1 = computeIsUI e ∧
    (markerHit e = true → computeIsUI e = true) ∧
    (markerHit e = false → e.width < 80 → e.height < 80 → computeIsUI e = true) ∧
    (markerHit e = false → ¬ (e.width < 80 ∧ e.height < 80) →
      computeIsUI e = false) := by
  refine ⟨isUIElement_miss_fst cache e h, ?_, ?_, ?_⟩
  · intro hm
    unfold markerHit at hm
    unfold computeIsUI
    rw [hm]
    simp
  · intro hm h1 h2
    unfold markerHit at hm
    unfold computeIsUI
    rw [hm]
    simp [h1, h2]
  · intro hm hnot
    unfold markerHit at hm
    unfold computeIsUI
    rw [hm]
    simp only [Bool.false_eq_true, if_false]
    by_cases hw : e.width < 80
    · have hh : ¬ e.height < 80 := fun hx => hnot ⟨hw, hx⟩
      simp [hw, hh]
    · simp [hw]

/-- C9 witness: the amended theorem applied to the concrete witness
node on the empty cache. -/
theorem c9_witness :
    (isUIElement [] elemW).1 = computeIsUI elemW ∧
    (markerHit elemW = true → computeIsUI elemW = true) ∧
    (markerHit elemW = false → elemW.width < 80 → elemW.height < 80 →
      computeIsUI elemW = true) ∧
    (markerHit elemW = false → ¬ (elemW.width < 80 ∧ elemW.height < 80) →
      computeIsUI elemW = false) :=
  c9_amended [] elemW rfl

/-- C10: the cache key is src (or the first 100 characters of outerHTML
when src is empty), so once a node is classified, classifying any other
node with the same key returns the first result from the cache and
leaves the cache unchanged, regardless of the second node itself. -/
theorem c10_cache_key_aliasing (cache : List (String × Bool)) (a b : Elem)
    (hk : cacheKey a = cacheKey b)
    (hm : cacheLookup cache (cacheKey a) = none)
    (hl : cache.length ≤ 499) :
    isUIElement (isUIElement cache a).2 b
      = ((isUIElement cache a).1, (isUIElement cache a).2) ∧
    (isUIElement cache a).1 = computeIsUI a := by
  have h2 : (isUIElement cache a).2 = cache ++ [(cacheKey a, computeIsUI a)] := by
    unfold isUIElement
    rw [hm]
    simp only
    unfold trimCache
    rw [if_neg ?hng]
    case hng =>
      rw [List.length_append]
      simp only [List.length_singleton]
      unfold maxUiCacheSize
      omega
  have h1 : (isUIElement cache a).1 = computeIsUI a :=
    isUIElement_miss_fst cache a hm
  have hlk : cacheLookup ((isUIElement cache a).2) (cacheKey b)
      = some (computeIsUI a) := by
    rw [h2, ← hk]
    exact cacheLookup_append_self cache (cacheKey a) _ hm
  refine ⟨?_, h1⟩
  rw [isUIElement_hit _ b _ hlk, h1]

/-- First node classified: a large plain image with key sameKey. -/
def elemA10 : Elem := ⟨21, "sameKey", "", none, none, 200, 200⟩

/-- Second node with the same key but an avatar marker of its own. -/
def elemB10 : Elem := ⟨22, "sameKey", "", some "avatar", none, 10, 10⟩

/-- C10 witness: after classifying the first node, the marker-bearing
second node with the same key is answered from the cache with the first
result (not-chrome), and the cache is unchanged. -/
theorem c10_witness :
    isUIElement (isUIElement [] elemA10).2 elemB10
      = ((isUIElement [] elemA10).1, (isUIElement [] elemA10).2) ∧
    (isUIElement [] elemA10).1 = computeIsUI elemA10 :=
  c10_cache_key_aliasing [] elemA10 elemB10 rfl rfl (by decide)

end XSafe
